import Mathlib

/-!
Verification development for the shopify-track order-tracking service.

The JavaScript source is shallowly embedded:
pure computations become Lean functions; every external call made by an
async function (carrier HTTP calls, the translator, the clock) is passed
in explicitly as data (an `Env` record of call outcomes, an oracle
function for the translator), so that one Lean evaluation models one
concrete execution of the JS function against those outcomes.  A thrown
JS exception is modelled by the `.error` constructor of `Except`.

JS-specific conventions used throughout:
* a possibly-absent (`undefined`/`null`) field is an `Option`;
* string truthiness: `undefined`/`null`/`""` are falsy;
* number truthiness: `0` is falsy;
* `a || b` on strings is `jsOrS`; strict equality `===` never coerces,
  so a number and a string are never `===`-equal (`JsPrim` below).
-/

/-- A JS primitive value that can sit in a `tracking_number`-like field:
either a number or a string.  Strict equality `===` is plain equality of
this type (no coercion across the two constructors). -/
inductive JsPrim where
  | num : Int → JsPrim
  | str : String → JsPrim
deriving DecidableEq, Repr

/-- JS truthiness of a primitive: `0` and `""` are falsy. -/
def jsPrimTruthy : JsPrim → Bool
  | .num n => n ≠ 0
  | .str s => s ≠ ""

/-- JS truthiness of a possibly-absent primitive (`undefined` is falsy). -/
def jsTruthyPO : Option JsPrim → Bool
  | none => false
  | some p => jsPrimTruthy p

/-- JS truthiness of a possibly-absent string. -/
def jsTruthyS : Option String → Bool
  | none => false
  | some s => s ≠ ""

/-- `a || b` where `a` is a possibly-absent string and `b` a string:
returns `a` when truthy, else `b`. -/
def jsOrS (a : Option String) (b : String) : String :=
  match a with
  | some s => if s = "" then b else s
  | none => b

/-- `a || b` on two possibly-absent strings (first truthy one wins). -/
def jsOrOS (a b : Option String) : Option String :=
  if jsTruthyS a then a else b

/-- `String(x)` for a JS primitive (the string form of a number is its
decimal rendering). -/
def jsPrimKey : JsPrim → String
  | .num n => toString n
  | .str s => s

/-- `String(x)` for a possibly-absent number (`undefined` renders as the
literal text "undefined" when concatenated in JS). -/
def jsNumToString : Option Int → String
  | some n => toString n
  | none => "undefined"

/-- `String.prototype.trim()`: strip leading and trailing whitespace.
Implemented structurally (core `String.trim` recurses by well-founded
recursion, which the kernel cannot evaluate); JS's whitespace class is
approximated by `Char.isWhitespace`, which covers the characters
appearing in carrier data. -/
def jsTrim (s : String) : String :=
  String.mk (((s.data.dropWhile Char.isWhitespace).reverse.dropWhile Char.isWhitespace).reverse)

/-- A normalized tracking event as built by trackingService.js: the
normalizer emits `{time, desc, location}` objects, the raw carrier events
carry `description`; both spellings coexist on this one record, absent
fields being `none` (mirroring absent JS properties). -/
structure JsEvent where
  time : String
  desc : Option String := none
  description : Option String := none
  location : Option String := none
deriving DecidableEq, Repr

/-! ## trackingService.js : getStatusText (lines 22-33) -/

/-- `getStatusText(code)`: map 17TRACK numeric status codes to text;
`statusMap[code] || "Unknown"`, an absent `code` (undefined) also falls
through to "Unknown". -/
def getStatusText : Option Int → String
  | some 0 => "Not Found"
  | some 10 => "In Transit"
  | some 20 => "Expired"
  | some 30 => "Ready for Pickup"
  | some 35 => "Undelivered"
  | some 40 => "Delivered"
  | some 50 => "Alert"
  | _ => "Unknown"

/-! ## trackingService.js : detectLanguage (lines 142-156) -/

/-- The text scanned for one event: `(event.desc || event.description || "")
+ (event.location || "")` (line 146). -/
def eventText (e : JsEvent) : String :=
  jsOrS e.desc (jsOrS e.description "") ++ jsOrS e.location ""

/-- Test for the regex `[一-龥]` (CJK unified ideographs).  The JS
regexes operate on UTF-16 units, but all four scanned ranges lie in the
BMP, where UTF-16 units and code points coincide; the scan runs over the
string's character list. -/
def hasCJK (s : String) : Bool :=
  s.data.any fun c => decide (0x4e00 ≤ c.toNat ∧ c.toNat ≤ 0x9fa5)

/-- Test for the regex `[а-яА-Я]` (Cyrillic lowercase U+0430-U+044F and
uppercase U+0410-U+042F). -/
def hasCyrillic (s : String) : Bool :=
  s.data.any fun c =>
    decide ((0x430 ≤ c.toNat ∧ c.toNat ≤ 0x44f) ∨ (0x410 ≤ c.toNat ∧ c.toNat ≤ 0x42f))

/-- Test for the regex `[가-힯]` (Hangul syllables). -/
def hasHangul (s : String) : Bool :=
  s.data.any fun c => decide (0xac00 ≤ c.toNat ∧ c.toNat ≤ 0xd7af)

/-- Test for the regex `[぀-ゟ゠-ヿ]` (Hiragana and
Katakana). -/
def hasKana (s : String) : Bool :=
  s.data.any fun c =>
    decide ((0x3040 ≤ c.toNat ∧ c.toNat ≤ 0x309f) ∨ (0x30a0 ≤ c.toNat ∧ c.toNat ≤ 0x30ff))

/-- The `for (const event of events)` loop of `detectLanguage`: an event
with empty text is skipped (`if (!text) continue`); otherwise the four
signatures are tried in order and the first hit returns; when the loop
exhausts, `'English'` is returned. -/
def detectLanguageScan : List JsEvent → String
  | [] => "English"
  | e :: rest =>
    let text := eventText e
    if text = "" then detectLanguageScan rest
    else if hasCJK text then "Chinese"
    else if hasCyrillic text then "Russian"
    else if hasHangul text then "Korean"
    else if hasKana text then "Japanese"
    else detectLanguageScan rest

/-- `detectLanguage(events)` (lines 142-156): `'Unknown'` for a missing or
empty list, else the scan above. -/
def detectLanguage (events : List JsEvent) : String :=
  if events.length = 0 then "Unknown" else detectLanguageScan events

/-! ## trackingService.js : translateEvents (lines 316-342)

The translator collaborator is an oracle `String → Except Unit String`:
`.ok t` models a resolved translation with text `t`, `.error ()` a
rejected/thrown translation call. -/

/-- One iteration of the `events.map(async (event) => ...)` body.  The JS
code copies the event (`{...event}`), then inside a try block first
translates `event.description || event.desc` (assigning the result to
whichever of the two spellings is truthy on the original event), then
translates `event.location`; the catch swallows the failure and returns
`newEvent` as mutated so far.  Hence a failure on the description call
leaves the event fully unchanged, while a failure on the location call
keeps the already-translated description. -/
def translateOneEvent (tr : String → Except Unit String) (e : JsEvent) : JsEvent :=
  let textToTranslate := jsOrOS e.description e.desc
  let step1 : Except JsEvent JsEvent :=
    if jsTruthyS textToTranslate ∧ jsTrim (textToTranslate.getD "") ≠ "" then
      match tr (textToTranslate.getD "") with
      | .ok txt =>
        .ok { e with
              description := if jsTruthyS e.description then some txt else e.description
              desc := if jsTruthyS e.desc then some txt else e.desc }
      | .error _ => .error e
    else .ok e
  match step1 with
  | .error partialEvent => partialEvent
  | .ok e1 =>
    if jsTruthyS e.location ∧ jsTrim (e.location.getD "") ≠ "" then
      match tr (e.location.getD "") with
      | .ok txt => { e1 with location := some txt }
      | .error _ => e1
    else e1

/-- `translateEvents(events, targetLang)` with the target already folded
into the oracle `tr`: an empty list is returned as-is (line 317), else
each event is translated independently (`Promise.all` of the mapped
promises keeps the input order). -/
def translateEvents (tr : String → Except Unit String) (events : List JsEvent) : List JsEvent :=
  if events.isEmpty then events
  else events.map (translateOneEvent tr)

/-! ## trackingService.js : carrier payload shapes (17TRACK v2.4) -/

/-- A raw event of the modern (`track_info`) payload shape. -/
structure RawCarrierEvent where
  time_iso : Option String := none
  time_utc : Option String := none
  description : Option String := none
  location : Option String := none
deriving DecidableEq, Repr

/-- The `provider` object inside a provider entry (`name`, `alias`,
`key`); `alias` is a reserved word in Lean, hence the field name
`providerAlias`; `key` is the numeric carrier id. -/
structure ProviderIdent where
  name : Option String := none
  providerAlias : Option String := none
  key : Int := 0
deriving DecidableEq, Repr

/-- One entry of `track_info.tracking.providers`. -/
structure ProviderEntry where
  events : Option (List RawCarrierEvent) := none
  provider : Option ProviderIdent := none
deriving DecidableEq, Repr

/-- The `tracking` object of the modern payload shape. -/
structure TrackingObj where
  providers : Option (List ProviderEntry) := none
deriving DecidableEq, Repr

/-- `track_info.latest_status`. -/
structure LatestStatus where
  status_description : Option String := none
  status : Option String := none
deriving DecidableEq, Repr

/-- A legacy (minified) event: `a` is the time, `z` the text. -/
structure LegacyEvent where
  a : Option String := none
  z : Option String := none
deriving DecidableEq, Repr

/-- A track payload (`item.track_info || item.track`).  Modern fields:
`tracking`, `latest_status`; legacy fields: `z0` (events), `e` (numeric
status code), `w1` (carrier id).  `status_description` and `status` model
top-level fields a raw payload may carry; the code never reads them
(relevant to claim C8). -/
structure TrackPayload where
  tracking : Option TrackingObj := none
  latest_status : Option LatestStatus := none
  status_description : Option String := none
  status : Option String := none
  z0 : Option (List LegacyEvent) := none
  e : Option Int := none
  w1 : Option Int := none
deriving DecidableEq, Repr

/-- One entry of `data.data.accepted`. -/
structure AcceptedItem where
  track_info : Option TrackPayload := none
  track : Option TrackPayload := none
deriving DecidableEq, Repr

/-- A rejection error object (`rejected[i].error`). -/
structure RejectError where
  code : Int
deriving DecidableEq, Repr

/-- One entry of `data.data.rejected`; `error` may be absent. -/
structure RejectedItem where
  error : Option RejectError := none
deriving DecidableEq, Repr

/-- A well-formed 17TRACK API response body, flattening `data.data` into
the record: top-level `code`, `data.accepted`, optional `data.rejected`
(`data.data.rejected || []` in the source).  A malformed body whose
field accesses would throw is modelled by the `.error` side of the
`Except` that delivers the response. -/
structure ApiResponse where
  code : Int
  accepted : List AcceptedItem := []
  rejected : Option (List RejectedItem) := none
deriving DecidableEq, Repr

/-- `item.track_info || item.track` (lines 197, 219): objects are always
truthy, so the first present payload wins. -/
def extractInfo (item : AcceptedItem) : Option TrackPayload :=
  item.track_info <|> item.track

/-- The outcomes of the external calls that one `getTrackingInfo` request
can make.  `hasKey` is the configuration check `TRACK17_KEY` set and not
the placeholder; `fetchAt n` is the outcome of the `(n+1)`-th
`gettrackinfo` POST of this request (`.error` = the HTTP call threw);
`regResp`/`changeResp` likewise for the single `register`/`changeinfo`
POSTs; `now` is `new Date().toLocaleString()` at the time the
"Registered" placeholder event would be built. -/
structure Env where
  hasKey : Bool
  fetchAt : Nat → Except String ApiResponse
  regResp : Except String ApiResponse
  changeResp : Except String ApiResponse
  now : String

/-- The result object of `registerTracking`/`changeTrackingInfo`:
`{ ok }` or `{ ok, error }`. -/
structure OkResult where
  ok : Bool
  error : Option String := none
deriving DecidableEq, Repr

/-! ## trackingService.js : registerTracking (lines 38-78) -/

/-- `registerTracking(trackingNumber)`: missing key is a configuration
error; a thrown HTTP call is caught and its message returned; a response
with `code === 0` and a non-empty `accepted` list is success; otherwise a
rejection whose `error.code` is `-18019903` ("already registered") is
also success; any other rejection is "Registration failed". -/
def registerTracking (env : Env) : OkResult :=
  if !env.hasKey then { ok := false, error := some "API Key not configured" }
  else
    match env.regResp with
    | .error msg => { ok := false, error := some msg }
    | .ok data =>
      if data.code = 0 ∧ data.accepted ≠ [] then
        { ok := true }
      else
        let rejected := data.rejected.getD []
        let isAlreadyRegistered :=
          rejected.any fun r => r.error.isSome && decide (r.error = some ⟨-18019903⟩)
        if isAlreadyRegistered then { ok := true }
        else { ok := false, error := some "Registration failed" }

/-! ## trackingService.js : changeTrackingInfo (lines 105-137) -/

/-- `changeTrackingInfo(trackingNumber, langCode)`; the caller in
`getTrackingInfo` awaits and discards this result. -/
def changeTrackingInfo (env : Env) : OkResult :=
  if !env.hasKey then { ok := false, error := some "API Key not configured" }
  else
    match env.changeResp with
    | .error msg => { ok := false, error := some msg }
    | .ok data =>
      if data.code = 0 ∧ data.accepted ≠ [] then { ok := true }
      else { ok := false, error := some "Change info failed" }

/-! ## trackingService.js : getTrackingInfo (lines 161-314) -/

/-- The final tracking result object.  Fields the JS object does not set
on a given return path are `none`/`[]` here (`events` of an `ok:false`
result is the empty list, matching the `trackInfo.events || []` reads of
all consumers). -/
structure TrackResult where
  ok : Bool
  tracking : Option String := none
  status : Option String := none
  carrier : Option String := none
  events : List JsEvent := []
  original_language : Option String := none
  error : Option String := none
deriving DecidableEq, Repr

/-- The canned mock result for the sentinel number (lines 163-175). -/
def mockResult (tracking : String) : TrackResult :=
  { ok := true
    tracking := some tracking
    status := some "In transit"
    carrier := some "DemoCarrier"
    events :=
      [ { time := "2026-01-20 10:00", desc := some "Label created" }
      , { time := "2026-01-21 15:30", desc := some "Picked up" }
      , { time := "2026-01-23 09:10", desc := some "In transit" } ] }

/-- The synthetic "Registered" result returned when polling exhausts with
no data (lines 229-242). -/
def registeredResult (tracking now : String) : TrackResult :=
  { ok := true
    tracking := some tracking
    status := some "Registered"
    carrier := some "Detecting..."
    events :=
      [ { time := now
          desc := some "Tracking number registered. System is retrieving details from carrier..." } ] }

/-- One poll attempt of the registration loop (lines 211-226): evaluates
one `fetchFrom17Track` outcome.  `.ok (some info)` models the `break`
with `trackData = info`; `.ok none` models falling through to the next
wait; `.error` models a thrown fetch, or the `TypeError` thrown by
`info.tracking.providers[0].events.length` when `providers` is an empty
array (`providers[0]` is `undefined`) or the first provider has no
`events` field — an empty array is truthy in JS, so the guard
`info.tracking.providers` does not protect those two accesses. -/
def pollStep (r : Except String ApiResponse) : Except String (Option TrackPayload) :=
  match r with
  | .error e => .error e
  | .ok data =>
    if data.code = 0 ∧ data.accepted ≠ [] then
      match data.accepted.head? with
      | none => .ok none
      | some item =>
        match extractInfo item with
        | none => .ok none
        | some info =>
          match info.tracking with
          | none => .ok none
          | some t =>
            match t.providers with
            | none => .ok none
            | some ps =>
              match ps.head? with
              | none => .error "TypeError: undefined events"
              | some p0 =>
                match p0.events with
                | none => .error "TypeError: undefined length"
                | some evs => if evs.length > 0 then .ok (some info) else .ok none
    else .ok none

/-- The `for (const wait of waitTimes)` polling loop, iterating over the
fetch indices of the successive poll attempts (the waits themselves only
delay and are not modelled). -/
def pollLoop (env : Env) : List Nat → Except String (Option TrackPayload)
  | [] => .ok none
  | i :: rest =>
    match pollStep (env.fetchAt i) with
    | .error e => .error e
    | .ok (some td) => .ok (some td)
    | .ok none => pollLoop env rest

/-- Normalization of a track payload (lines 250-284) into
`(events, status, carrier)`.  Modern branch: guarded by
`trackData.tracking && trackData.tracking.providers` (an empty providers
array is truthy); events from `providers[0].events` when both present;
carrier from `provider.name || provider.alias || "Carrier ID: " + key`;
status from `latest_status.status_description || latest_status.status ||
"Unknown"` only when `latest_status` is truthy.  Legacy branch: guarded
by `trackData.z0`. -/
def normalizeTrack (td : TrackPayload) : List JsEvent × String × String :=
  let legacyOrDefault : List JsEvent × String × String :=
    match td.z0 with
    | some evs =>
      ( evs.map fun e => { time := jsOrS e.a "", desc := some (jsOrS e.z "") }
      , getStatusText td.e
      , "Carrier ID: " ++ jsNumToString td.w1 )
    | none => ([], "Unknown", "Unknown")
  match td.tracking with
  | none => legacyOrDefault
  | some tr =>
    match tr.providers with
    | none => legacyOrDefault
    | some ps =>
      let events : List JsEvent :=
        match ps.head? with
        | some p0 =>
          match p0.events with
          | some evs =>
            evs.map fun e =>
              { time := jsOrS e.time_iso (jsOrS e.time_utc "")
                desc := some (jsOrS e.description "")
                location := some (jsOrS e.location "") }
          | none => []
        | none => []
      let carrier : String :=
        match ps.head? with
        | some p0 =>
          match p0.provider with
          | some pr => jsOrS pr.name (jsOrS pr.providerAlias ("Carrier ID: " ++ toString pr.key))
          | none => "Unknown"
        | none => "Unknown"
      let status : String :=
        match td.latest_status with
        | some ls => jsOrS ls.status_description (jsOrS ls.status "Unknown")
        | none => "Unknown"
      (events, status, carrier)

/-- The `LANG_MAP` lookup (lines 7-15).  A JS object property access
stringifies its key, so the numeric key `1033` and the string key
`"1033"` hit the same entry. -/
def langMapLookup : String → Option String
  | "1033" => some "en"
  | "2052" => some "zh-CN"
  | "1036" => some "fr"
  | "1034" => some "es"
  | "1031" => some "de"
  | "1040" => some "it"
  | "1041" => some "ja"
  | _ => none

/-- `const targetLang = (... && LANG_MAP[lang]) ? LANG_MAP[lang] : lang`
(line 290): a mapped code (all map values are truthy) replaces `lang`,
anything else — including `null` — passes through unchanged. -/
def computeTargetLang (lang : Option JsPrim) : Option JsPrim :=
  match lang with
  | none => none
  | some p =>
    match langMapLookup (jsPrimKey p) with
    | some code => some (.str code)
    | none => some p

/-- The translator oracle: target language and source text to outcome. -/
def Translator : Type := JsPrim → String → Except Unit String

/-- Lines 250-308, the `if (trackData)` tail of the try block: normalize,
detect the original language on the pre-translation events, translate
when a truthy target language was computed, and assemble the `ok:true`
result; `return { ok: false }` when there is no payload. -/
def processTrackData (tr : Translator) (tracking : String) (lang : Option JsPrim) :
    Option TrackPayload → TrackResult
  | none => { ok := false }
  | some td =>
    let norm := normalizeTrack td
    let events := norm.1
    let status := norm.2.1
    let carrier := norm.2.2
    let originalLang := detectLanguage events
    let targetLang := computeTargetLang lang
    let events2 :=
      match targetLang with
      | some tl => if jsPrimTruthy tl then translateEvents (tr tl) events else events
      | none => events
    { ok := true
      tracking := some tracking
      status := some status
      carrier := some carrier
      events := events2
      original_language := some originalLang }

/-- Result of the acquisition phase (the code before line 250):
`.earlyReturn r` models a `return r` taken inside the registration
branch, `.proceed td` models reaching line 250 with `trackData = td`
(possibly `undefined`). -/
inductive AcqOutcome where
  | earlyReturn : TrackResult → AcqOutcome
  | proceed : Option TrackPayload → AcqOutcome

/-- Lines 190-247: the first fetch, and on a not-found response the
register-then-poll protocol.  Follows the source exactly: a first fetch
with `code === 0` and non-empty `accepted` proceeds with
`item.track_info || item.track` unconditionally (no event check);
otherwise registration failure returns the terminal not-found error, and
a registration success polls at most three times, returning the
synthetic "Registered" result when no poll produced events. -/
def acquireTrackData (env : Env) (tracking : String) : Except String AcqOutcome :=
  match env.fetchAt 0 with
  | .error e => .error e
  | .ok data =>
    if data.code = 0 ∧ data.accepted ≠ [] then
      match data.accepted.head? with
      | none => .ok (.proceed none)
      | some item => .ok (.proceed (extractInfo item))
    else
      let regResult := registerTracking env
      if regResult.ok then
        match pollLoop env [1, 2, 3] with
        | .error e => .error e
        | .ok (some td) => .ok (.proceed (some td))
        | .ok none => .ok (.earlyReturn (registeredResult tracking env.now))
      else
        .ok (.earlyReturn
          { ok := false, error := some "Tracking number not found and could not be registered." })

/-- The try block of `getTrackingInfo` (lines 182-308).  The initial
`if (lang)` branch awaits `changeTrackingInfo` (which catches its own
exceptions) and discards the result, so it contributes nothing to the
outcome; it is evaluated here for fidelity only. -/
def getTrackingInfoBody (env : Env) (tr : Translator) (tracking : String)
    (lang : Option JsPrim) : Except String TrackResult :=
  let _ := if jsTruthyPO lang then some (changeTrackingInfo env) else none
  match acquireTrackData env tracking with
  | .error e => .error e
  | .ok (.earlyReturn r) => .ok r
  | .ok (.proceed td) => .ok (processTrackData tr tracking lang td)

/-- `getTrackingInfo(tracking, lang)` (lines 161-314): the mock sentinel
and the configuration check precede the try block; the catch converts any
exception escaping the body into `{ ok:false, error:"Service Error" }`. -/
def getTrackingInfo (env : Env) (tr : Translator) (tracking : String)
    (lang : Option JsPrim) : TrackResult :=
  if tracking = "TEST123_MOCK" then mockResult tracking
  else if !env.hasKey then { ok := false, error := some "Tracking service not configured" }
  else
    match getTrackingInfoBody env tr tracking lang with
    | .ok r => r
    | .error _ => { ok := false, error := some "Service Error" }

/-! ## get_token.js (shopifyService) : processOrderData (lines 152-303)

The mapper converts a raw Shopify order into the internal
package/item model.  Only the fields the mapper's package construction
reads are modelled; the optional product-image fetch (step 2 of the
source) only fills the `image` field of line items, which no claim
observes, and is omitted.  Scalar order fields copied verbatim into the
result (`id`, `name`, `email`, ...) are likewise omitted. -/

/-- A raw Shopify line item (`order.line_items[i]`), with its ordered
quantity. -/
structure LineItem where
  id : Nat
  name : String
  quantity : Int
deriving DecidableEq, Repr

/-- A line item of a fulfillment (`f.line_items[i]`): the id joins back
to the order's line items, the quantity is the shipped quantity. -/
structure FulfillmentLineItem where
  id : Nat
  quantity : Int
deriving DecidableEq, Repr

/-- A raw Shopify fulfillment record. -/
structure RawFulfillment where
  id : Int
  tracking_number : Option JsPrim := none
  tracking_company : Option String := none
  tracking_url : Option String := none
  shipment_status : Option String := none
  line_items : List FulfillmentLineItem := []
deriving DecidableEq, Repr

/-- A raw Shopify order (the fields `processOrderData` reads for its
package construction). -/
structure RawOrder where
  line_items : List LineItem := []
  fulfillments : List RawFulfillment := []
deriving DecidableEq, Repr

/-- An item embedded in a package: `{...originalItem, quantity: li.quantity}`.
When the fulfillment references an id absent from `lineItemsMap`,
`originalItem` is `undefined` and the spread contributes nothing, leaving
`id` and `name` undefined (`none`). -/
structure PkgItem where
  id : Option Nat
  name : Option String
  quantity : Int
deriving DecidableEq, Repr

/-- A package of the mapped order.  `id` is `f.id` (a number) for real
packages and the string `'unfulfilled-group'` for the synthetic one,
hence `JsPrim`.  `carrier`, `events` and `original_language` are the
fields added later by the server-side enrichment (absent/empty until
then). -/
structure Package where
  id : JsPrim
  name : String
  tracking_number : Option JsPrim := none
  tracking_company : Option String := none
  tracking_url : Option String := none
  status : Option String := none
  items : List PkgItem := []
  carrier : Option String := none
  events : List JsEvent := []
  original_language : Option String := none
deriving DecidableEq, Repr

/-- Insert a line item into the model of the JS object `lineItemsMap`.
A JS object enumerates integer-like keys in ascending numeric order and
an assignment to an existing key overwrites its value, so the map is a
list kept sorted by `id` with replacement on an equal `id`. -/
def jsObjInsert (it : LineItem) : List LineItem → List LineItem
  | [] => [it]
  | x :: xs =>
    if it.id < x.id then it :: x :: xs
    else if it.id = x.id then it :: xs
    else x :: jsObjInsert it xs

/-- `Object.values(lineItemsMap)` after the
`order.line_items.forEach(item => { lineItemsMap[item.id] = ... })` loop
(lines 158-170). -/
def jsValues (items : List LineItem) : List LineItem :=
  items.foldl (fun acc it => jsObjInsert it acc) []

/-- `lineItemsMap[i]`: JS object lookup by integer key. -/
def lineItemsLookup (vals : List LineItem) (i : Nat) : Option LineItem :=
  vals.find? fun it => it.id == i

/-- `Array.prototype.map` with the element index, as used by
`order.fulfillments.map((f, index) => ...)`. -/
def mapWithIndex (f : Nat → α → β) : Nat → List α → List β
  | _, [] => []
  | i, x :: xs => f i x :: mapWithIndex f (i + 1) xs

/-- The join of one fulfillment line item against `lineItemsMap`
(lines 231-237): `{...originalItem, quantity: li.quantity}`.  When the id
is absent from the map, `originalItem` is `undefined` and the spread
leaves `id`/`name` undefined. -/
def joinFulfillmentItem (vals : List LineItem) (li : FulfillmentLineItem) : PkgItem :=
  match lineItemsLookup vals li.id with
  | some it => { id := some it.id, name := some it.name, quantity := li.quantity }
  | none => { id := none, name := none, quantity := li.quantity }

/-- One real package (lines 229-248): items are the fulfillment's line
items joined against `lineItemsMap` with the shipment quantity overriding
the ordered one; name is `Package #` with the 1-based index in the raw
fulfillments array (before the tracking-number filter); status is
`f.shipment_status || 'fulfilled'`. -/
def fulfillmentPackage (vals : List LineItem) (index : Nat) (f : RawFulfillment) : Package :=
  { id := .num f.id
    name := "Package #" ++ toString (index + 1)
    tracking_number := f.tracking_number
    tracking_company := f.tracking_company
    tracking_url := f.tracking_url
    status := some (jsOrS f.shipment_status "fulfilled")
    items := f.line_items.map (joinFulfillmentItem vals) }

/-- Sum of `item.quantity` over all items with id `k` in all packages of
`pkgs`: the final value of the `fulfilledCounts[k]` accumulator of lines
252-257 (an id `none` models the `undefined` key bucket). -/
def pkgItemSum (pkgs : List Package) (k : Option Nat) : Int :=
  (pkgs.map fun p => ((p.items.filter fun it => decide (it.id = k)).map (·.quantity)).sum).sum

/-- The `packages` const of lines 229-248: one package per fulfillment,
keeping only those with a truthy tracking number. -/
def mapperRealPackages (ord : RawOrder) : List Package :=
  (mapWithIndex (fun index f => fulfillmentPackage (jsValues ord.line_items) index f)
      0 ord.fulfillments).filter
    fun p => jsTruthyPO p.tracking_number

/-- The body of the `unfulfilledItems` loop (lines 260-271) for one line
item: `remainingQty = item.quantity - fulfilledQty`, kept only when
strictly positive. -/
def mapperShortfallItem (ord : RawOrder) (item : LineItem) : Option PkgItem :=
  let fulfilledQty := pkgItemSum (mapperRealPackages ord) (some item.id)
  let remainingQty := item.quantity - fulfilledQty
  if 0 < remainingQty then
    some { id := some item.id, name := some item.name, quantity := remainingQty }
  else none

/-- The `unfulfilledItems` const (lines 260-271), accumulated over
`Object.values(lineItemsMap)`. -/
def mapperUnfulfilled (ord : RawOrder) : List PkgItem :=
  (jsValues ord.line_items).filterMap (mapperShortfallItem ord)

/-- The synthetic "Processing" package pushed at lines 274-284. -/
def syntheticPackage (ord : RawOrder) : Package :=
  { id := .str "unfulfilled-group"
    name := "Package #" ++ toString ((mapperRealPackages ord).length + 1) ++ " (Processing)"
    tracking_number := some (.str "Processing")
    tracking_company := some "N/A"
    tracking_url := none
    status := some "ordered"
    items := mapperUnfulfilled ord }

/-- The package list built by `processOrderData` (lines 227-284): the
real packages, then the synthetic one exactly when some line item has a
positive remaining quantity. -/
def processOrderPackages (ord : RawOrder) : List Package :=
  mapperRealPackages ord ++
    (if (mapperUnfulfilled ord).isEmpty then [] else [syntheticPackage ord])

/-- The mapped order returned by `processOrderData`: `items` is
`Object.values(lineItemsMap)` (the full ordered quantities), `packages`
as above. -/
structure MappedOrder where
  items : List LineItem
  packages : List Package
deriving DecidableEq, Repr

/-- `processOrderData(order, ...)` (lines 152-303), restricted to the
fields the claims observe. -/
def processOrderData (ord : RawOrder) : MappedOrder :=
  { items := jsValues ord.line_items
    packages := processOrderPackages ord }

/-! ## server.js : package enrichment in the order+email path (lines 145-163) -/

/-- One slot of the `Promise.all(viewData.order.packages.map(...))`
fan-out: a package whose tracking number is truthy and not the
`'Processing'` sentinel is enriched with the (abstracted) `getTrackingInfo`
result when that result is `ok`; every other case returns
`{ ...pkg, events: [] }`. -/
def enrichPackage (trackFn : JsPrim → TrackResult) (pkg : Package) : Package :=
  match pkg.tracking_number with
  | some tn =>
    if jsPrimTruthy tn ∧ tn ≠ .str "Processing" then
      let trackInfo := trackFn tn
      if trackInfo.ok then
        { pkg with
          status := trackInfo.status
          carrier := trackInfo.carrier
          events := trackInfo.events
          original_language := trackInfo.original_language }
      else { pkg with events := [] }
    else { pkg with events := [] }
  | none => { pkg with events := [] }

/-- `enrichedPackages` (lines 147-161). -/
def enrichedPackages (trackFn : JsPrim → TrackResult) (pkgs : List Package) : List Package :=
  pkgs.map (enrichPackage trackFn)

/-! ## Tracking-number matching (server.js line 204, get_token.js lines 481-513) -/

/-- server.js line 204:
`order.packages.find(p => p.tracking_number === tracking) || order.packages[0]`.
The requested tracking number comes from the query string and is a
string; the comparison is strict `===`. -/
def matchedPackage (pkgs : List Package) (tracking : String) : Option Package :=
  match pkgs.find? (fun p => decide (p.tracking_number = some (.str tracking))) with
  | some p => some p
  | none => pkgs.head?

/-- get_token.js line 509:
`packages.find(p => p.tracking_number === trackingNumber)`; when this is
`undefined` the caller returns the error
"Tracking number not found in order fulfillments." -/
def targetPackage (pkgs : List Package) (trackingNumber : String) : Option Package :=
  pkgs.find? fun p => decide (p.tracking_number = some (.str trackingNumber))

/-- The matching rule claim C9 asserts (spec words, not the source):
a package matches whenever the string forms of its tracking number and
of the requested tracking number are equal. -/
def claimedStringFormMatch (p : Package) (tracking : String) : Bool :=
  p.tracking_number.map jsPrimKey == some tracking

/-! ## Claim C1 : statement of the mapper invariant -/

/-- A package shaped like the synthetic one of claim C1: tracking number
the `'Processing'` sentinel and status `'ordered'`. -/
def isProcessingPkg (p : Package) : Bool :=
  decide (p.tracking_number = some (.str "Processing")) && decide (p.status = some "ordered")

/-- The real (carrier-backed) packages of a mapped package list in the
sense of claim C1: those not bearing the `'Processing'` sentinel. -/
def realPackages (pkgs : List Package) : List Package :=
  pkgs.filter fun p => decide (p.tracking_number ≠ some (.str "Processing"))

/-- Per-item fulfilled total of a raw order, over the fulfillments that
bear a truthy tracking number. -/
def rawItemFulfilledSum (ord : RawOrder) (i : Nat) : Int :=
  ((ord.fulfillments.filter fun f => jsTruthyPO f.tracking_number).map
    fun f => ((f.line_items.filter fun li => li.id == i).map (·.quantity)).sum).sum

/-- A placeholder package used only as the (never-reached) default of
`List.getLastD` in the claim statements below. -/
def placeholderPackage : Package := { id := .str "", name := "" }

/-- The conditions claim C1 puts on the trailing synthetic package `p`:
it is "Processing"-shaped and carries exactly the positive shortfall of
each line item (one entry per such item, nothing else). -/
abbrev processingPkgSpec (ord : RawOrder) (out : List Package) (p : Package) : Prop :=
  isProcessingPkg p = true ∧
  (∀ it ∈ ord.line_items,
    (pkgItemSum (realPackages out) (some it.id) < it.quantity ↔
      ({ id := some it.id, name := some it.name,
         quantity := it.quantity - pkgItemSum (realPackages out) (some it.id) } : PkgItem)
        ∈ p.items)) ∧
  (∀ x ∈ p.items, ∃ it ∈ ord.line_items, x.id = some it.id) ∧
  (p.items.map PkgItem.id).Nodup

/-- Claim C1, middle conjunct, right-hand side: the output package list
ends in a single synthetic "Processing" package that carries exactly the
positive shortfall of each line item. -/
abbrev processingTailOk (ord : RawOrder) (out : List Package) : Prop :=
  (out.filter isProcessingPkg).length = 1 ∧
  out ≠ [] ∧
  processingPkgSpec ord out (out.getLastD placeholderPackage)

/-- Claim C1, last conjunct, right-hand side: the output is exactly one
synthetic package containing every line item at full ordered quantity. -/
abbrev zeroFulfillmentOut (ord : RawOrder) (out : List Package) : Prop :=
  out.length = 1 ∧
  isProcessingPkg (out.getLastD placeholderPackage) = true ∧
  (∀ it ∈ ord.line_items,
    ({ id := some it.id, name := some it.name, quantity := it.quantity } : PkgItem)
      ∈ (out.getLastD placeholderPackage).items) ∧
  (∀ x ∈ (out.getLastD placeholderPackage).items, ∃ it ∈ ord.line_items,
    x = { id := some it.id, name := some it.name, quantity := it.quantity })

/-- Claim C1 as stated, as a predicate on one raw order: (a) per-item
real-package totals never exceed the ordered quantity, (b) the synthetic
"Processing" package is appended (exactly once, last, with exactly the
shortfalls) iff some item has a strictly positive shortfall, (c) zero
fulfillments produce exactly one "Processing" package with every item at
full quantity. -/
abbrev claimC1Holds (ord : RawOrder) : Prop :=
  (∀ it ∈ ord.line_items,
    pkgItemSum (realPackages (processOrderData ord).packages) (some it.id) ≤ it.quantity) ∧
  ((∃ it ∈ ord.line_items,
      pkgItemSum (realPackages (processOrderData ord).packages) (some it.id) < it.quantity) ↔
    processingTailOk ord (processOrderData ord).packages) ∧
  (ord.fulfillments = [] → zeroFulfillmentOut ord (processOrderData ord).packages)

/-! ## Claim C1 : supporting lemmas -/

theorem jsObjInsert_perm (it : LineItem) :
    ∀ acc : List LineItem, it.id ∉ acc.map LineItem.id →
      List.Perm (jsObjInsert it acc) (it :: acc) := by
  intro acc
  induction acc with
  | nil => intro _; simp [jsObjInsert]
  | cons y ys ih =>
    intro hid
    simp only [List.map_cons, List.mem_cons, not_or] at hid
    obtain ⟨h1, h2⟩ := hid
    by_cases hlt : it.id < y.id
    · simp [jsObjInsert, hlt]
    · simp only [jsObjInsert, if_neg hlt, if_neg h1]
      exact ((ih h2).cons y).trans (List.Perm.swap it y ys)

theorem jsValues_go_perm :
    ∀ (l acc : List LineItem), ((acc ++ l).map LineItem.id).Nodup →
      List.Perm (List.foldl (fun a x => jsObjInsert x a) acc l) (acc ++ l) := by
  intro l
  induction l with
  | nil => intro acc _; simp
  | cons x xs ih =>
    intro acc hnd
    have hperm0 : List.Perm (acc ++ x :: xs) (x :: (acc ++ xs)) := List.perm_middle
    have hnd' : ((x :: (acc ++ xs)).map LineItem.id).Nodup :=
      (hperm0.map LineItem.id).nodup hnd
    have hx : x.id ∉ acc.map LineItem.id := by
      simp only [List.map_cons, List.nodup_cons, List.map_append, List.mem_append,
        not_or] at hnd'
      exact hnd'.1.1
    have hins : List.Perm (jsObjInsert x acc) (x :: acc) := jsObjInsert_perm x acc hx
    have hnd2 : ((jsObjInsert x acc ++ xs).map LineItem.id).Nodup := by
      have hp : List.Perm (acc ++ x :: xs) (jsObjInsert x acc ++ xs) :=
        hperm0.trans (hins.symm.append_right xs)
      exact (hp.map LineItem.id).nodup hnd
    have hfold : List.foldl (fun a y => jsObjInsert y a) acc (x :: xs)
        = List.foldl (fun a y => jsObjInsert y a) (jsObjInsert x acc) xs := rfl
    rw [hfold]
    exact ((ih (jsObjInsert x acc) hnd2).trans (hins.append_right xs)).trans
      List.perm_middle.symm

theorem jsValues_perm (l : List LineItem) (h : (l.map LineItem.id).Nodup) :
    List.Perm (jsValues l) l := by
  simpa [jsValues] using jsValues_go_perm l [] (by simpa using h)

theorem lineItemsLookup_eq (l : List LineItem) (h : (l.map LineItem.id).Nodup)
    (it : LineItem) (hmem : it ∈ l) :
    lineItemsLookup (jsValues l) it.id = some it := by
  unfold lineItemsLookup
  have hperm := jsValues_perm l h
  have hv : it ∈ jsValues l := hperm.mem_iff.mpr hmem
  have hsome : ((jsValues l).find? fun y => y.id == it.id).isSome := by
    rw [List.find?_isSome]
    exact ⟨it, hv, by simp⟩
  obtain ⟨x, hx⟩ := Option.isSome_iff_exists.mp hsome
  have hpx : (x.id == it.id) = true :=
    List.find?_some (p := fun y : LineItem => y.id == it.id) hx
  have hxl : x ∈ l := hperm.mem_iff.mp (List.mem_of_find?_eq_some hx)
  have hxit : x = it := List.inj_on_of_nodup_map h hxl hmem (by simpa using hpx)
  rw [hx, hxit]

theorem lineItemsLookup_of_id_mem (l : List LineItem) (h : (l.map LineItem.id).Nodup)
    (i : Nat) (hi : i ∈ l.map LineItem.id) :
    ∃ it ∈ l, it.id = i ∧ lineItemsLookup (jsValues l) i = some it := by
  obtain ⟨it, hmem, hid⟩ := List.mem_map.mp hi
  exact ⟨it, hmem, hid, hid ▸ lineItemsLookup_eq l h it hmem⟩

theorem joinFulfillmentItem_sum (l : List LineItem) (h : (l.map LineItem.id).Nodup)
    (i : Nat) :
    ∀ lis : List FulfillmentLineItem, (∀ li ∈ lis, li.id ∈ l.map LineItem.id) →
      (((lis.map (joinFulfillmentItem (jsValues l))).filter
          fun x => decide (x.id = some i)).map (·.quantity)).sum
        = ((lis.filter fun li => li.id == i).map (·.quantity)).sum := by
  intro lis
  induction lis with
  | nil => intro _; simp
  | cons li rest ih =>
    intro hids
    obtain ⟨it, hitl, hitid, hlook⟩ :=
      lineItemsLookup_of_id_mem l h li.id (hids li (List.mem_cons_self li rest))
    have hrest := ih fun x hx => hids x (List.mem_cons_of_mem li hx)
    have hjoin : joinFulfillmentItem (jsValues l) li
        = { id := some li.id, name := some it.name, quantity := li.quantity } := by
      simp [joinFulfillmentItem, hlook, hitid]
    by_cases hid : li.id = i
    · simp [List.map_cons, List.filter_cons, hjoin, hid, hrest]
    · simp [List.map_cons, List.filter_cons, hjoin, hid, hrest]

theorem mapWithIndex_mem {f : Nat → α → β} :
    ∀ {n : Nat} {l : List α} {b : β}, b ∈ mapWithIndex f n l → ∃ i a, a ∈ l ∧ b = f i a := by
  intro n l
  induction l generalizing n with
  | nil => intro b hb; simp [mapWithIndex] at hb
  | cons x xs ih =>
    intro b hb
    simp only [mapWithIndex, List.mem_cons] at hb
    rcases hb with rfl | hb
    · exact ⟨n, x, List.mem_cons_self x xs, rfl⟩
    · obtain ⟨i, a, ha, rfl⟩ := ih hb
      exact ⟨i, a, List.mem_cons_of_mem x ha, rfl⟩

theorem mapped_sum_go (l : List LineItem) (h1 : (l.map LineItem.id).Nodup) (i : Nat) :
    ∀ (fs : List RawFulfillment) (n : Nat),
      (∀ f ∈ fs, ∀ li ∈ f.line_items, li.id ∈ l.map LineItem.id) →
      pkgItemSum
          ((mapWithIndex (fun index f => fulfillmentPackage (jsValues l) index f) n fs).filter
            fun p => jsTruthyPO p.tracking_number) (some i)
        = ((fs.filter fun f => jsTruthyPO f.tracking_number).map
            fun f => ((f.line_items.filter fun li => li.id == i).map (·.quantity)).sum).sum := by
  intro fs
  induction fs with
  | nil => intro n _; simp [mapWithIndex, pkgItemSum]
  | cons f fs ih =>
    intro n h2
    have hf := h2 f (List.mem_cons_self f fs)
    have hfs : ∀ g ∈ fs, ∀ li ∈ g.line_items, li.id ∈ l.map LineItem.id :=
      fun g hg => h2 g (List.mem_cons_of_mem f hg)
    have htrk : (fulfillmentPackage (jsValues l) n f).tracking_number = f.tracking_number := rfl
    simp only [mapWithIndex, List.filter_cons]
    by_cases htr : jsTruthyPO f.tracking_number
    · rw [if_pos (by rw [htrk]; exact htr), if_pos htr]
      simp only [pkgItemSum, List.map_cons, List.sum_cons]
      have hhead :
          (((fulfillmentPackage (jsValues l) n f).items.filter
              fun x => decide (x.id = some i)).map (·.quantity)).sum
            = ((f.line_items.filter fun li => li.id == i).map (·.quantity)).sum := by
        have := joinFulfillmentItem_sum l h1 i f.line_items hf
        simpa [fulfillmentPackage] using this
      rw [hhead]
      have := ih (n + 1) hfs
      simp only [pkgItemSum] at this
      rw [this]
    · rw [if_neg (by rw [htrk]; exact htr), if_neg htr]
      exact ih (n + 1) hfs

theorem mapperRealPackages_sum (ord : RawOrder)
    (h1 : (ord.line_items.map LineItem.id).Nodup)
    (h2 : ∀ f ∈ ord.fulfillments, ∀ li ∈ f.line_items, li.id ∈ ord.line_items.map LineItem.id)
    (i : Nat) :
    pkgItemSum (mapperRealPackages ord) (some i) = rawItemFulfilledSum ord i :=
  mapped_sum_go ord.line_items h1 i ord.fulfillments 0 h2

theorem mapperRealPackages_tracking (ord : RawOrder) :
    ∀ p ∈ mapperRealPackages ord, ∃ f ∈ ord.fulfillments, p.tracking_number = f.tracking_number := by
  intro p hp
  have hmem := (List.mem_filter.mp hp).1
  obtain ⟨i, f, hf, rfl⟩ := mapWithIndex_mem hmem
  exact ⟨f, hf, rfl⟩

theorem mapperRealPackages_not_processing (ord : RawOrder)
    (h5 : ∀ f ∈ ord.fulfillments, f.tracking_number ≠ some (.str "Processing")) :
    ∀ p ∈ mapperRealPackages ord, p.tracking_number ≠ some (.str "Processing") := by
  intro p hp
  obtain ⟨f, hf, heq⟩ := mapperRealPackages_tracking ord p hp
  rw [heq]
  exact h5 f hf

theorem realPackages_out (ord : RawOrder)
    (h5 : ∀ f ∈ ord.fulfillments, f.tracking_number ≠ some (.str "Processing")) :
    realPackages (processOrderPackages ord) = mapperRealPackages ord := by
  unfold processOrderPackages realPackages
  rw [List.filter_append]
  have hleft : (mapperRealPackages ord).filter
      (fun p => decide (p.tracking_number ≠ some (.str "Processing")))
      = mapperRealPackages ord := by
    rw [List.filter_eq_self]
    intro p hp
    simpa using mapperRealPackages_not_processing ord h5 p hp
  rw [hleft]
  by_cases hemp : (mapperUnfulfilled ord).isEmpty
  · simp [hemp]
  · simp [hemp, syntheticPackage]

theorem mapperRealPackages_not_processingPkg (ord : RawOrder)
    (h5 : ∀ f ∈ ord.fulfillments, f.tracking_number ≠ some (.str "Processing")) :
    ∀ p ∈ mapperRealPackages ord, isProcessingPkg p = false := by
  intro p hp
  have := mapperRealPackages_not_processing ord h5 p hp
  simp [isProcessingPkg, this]

theorem processingFilter_out (ord : RawOrder)
    (h5 : ∀ f ∈ ord.fulfillments, f.tracking_number ≠ some (.str "Processing")) :
    (processOrderPackages ord).filter isProcessingPkg
      = if (mapperUnfulfilled ord).isEmpty then [] else [syntheticPackage ord] := by
  unfold processOrderPackages
  rw [List.filter_append]
  have hleft : (mapperRealPackages ord).filter isProcessingPkg = [] := by
    rw [List.filter_eq_nil_iff]
    intro p hp
    simp [mapperRealPackages_not_processingPkg ord h5 p hp]
  rw [hleft]
  by_cases hemp : (mapperUnfulfilled ord).isEmpty
  · simp [hemp]
  · simp [hemp, isProcessingPkg, syntheticPackage]

theorem mapperShortfallItem_some_iff (ord : RawOrder) (it : LineItem) (x : PkgItem) :
    mapperShortfallItem ord it = some x ↔
      0 < it.quantity - pkgItemSum (mapperRealPackages ord) (some it.id) ∧
      x = { id := some it.id, name := some it.name,
            quantity := it.quantity - pkgItemSum (mapperRealPackages ord) (some it.id) } := by
  unfold mapperShortfallItem
  by_cases hpos : 0 < it.quantity - pkgItemSum (mapperRealPackages ord) (some it.id)
  · simp [hpos, eq_comm]
  · simp [hpos]

theorem mapperShortfallItem_id (ord : RawOrder) (it : LineItem) (x : PkgItem)
    (h : mapperShortfallItem ord it = some x) : x.id = some it.id := by
  rw [mapperShortfallItem_some_iff] at h
  rw [h.2]

theorem mapperUnfulfilled_ids_nodup_go (ord : RawOrder) :
    ∀ vs : List LineItem, (vs.map LineItem.id).Nodup →
      ((vs.filterMap (mapperShortfallItem ord)).map PkgItem.id).Nodup := by
  intro vs
  induction vs with
  | nil => simp
  | cons v vs ih =>
    intro h
    simp only [List.map_cons, List.nodup_cons] at h
    rw [List.filterMap_cons]
    cases hv : mapperShortfallItem ord v with
    | none => exact ih h.2
    | some x =>
      simp only [List.map_cons, List.nodup_cons]
      refine ⟨?_, ih h.2⟩
      intro hmem
      obtain ⟨y, hy, hyid⟩ := List.mem_map.mp hmem
      obtain ⟨w, hw, hws⟩ := List.mem_filterMap.mp hy
      have h1 : y.id = some w.id := mapperShortfallItem_id ord w y hws
      have h2 : x.id = some v.id := mapperShortfallItem_id ord v x hv
      have : w.id = v.id := by
        have := h1.symm.trans (hyid.trans h2)
        simpa using this
      exact h.1 (this ▸ List.mem_map_of_mem LineItem.id hw)

theorem mapperUnfulfilled_empty_iff (ord : RawOrder) :
    mapperUnfulfilled ord = [] ↔
      ∀ it ∈ jsValues ord.line_items,
        ¬ 0 < it.quantity - pkgItemSum (mapperRealPackages ord) (some it.id) := by
  unfold mapperUnfulfilled
  rw [List.filterMap_eq_nil_iff]
  constructor
  · intro h it hit hpos
    have := h it hit
    rw [mapperShortfallItem] at this
    simp [hpos] at this
  · intro h it hit
    rw [mapperShortfallItem]
    simp [h it hit]

theorem filterMap_all_some (g : α → β) :
    ∀ l : List α, l.filterMap (fun a => some (g a)) = l.map g := by
  intro l
  induction l with
  | nil => rfl
  | cons x xs ih => simp [List.filterMap_cons, ih]

/-- Claim C1, amended: the mapper invariant holds for raw orders that are
well-formed in the Shopify sense — distinct line-item ids, fulfillment
line items referencing existing line items, per-item fulfilled totals
(over tracking-bearing fulfillments) not exceeding the ordered quantity,
strictly positive ordered quantities, no fulfillment carrying the literal
tracking number "Processing", and at least one line item. -/
theorem claim_C1_mapper_invariant (ord : RawOrder)
    (h1 : (ord.line_items.map LineItem.id).Nodup)
    (h2 : ∀ f ∈ ord.fulfillments, ∀ li ∈ f.line_items, li.id ∈ ord.line_items.map LineItem.id)
    (h3 : ∀ it ∈ ord.line_items, rawItemFulfilledSum ord it.id ≤ it.quantity)
    (h4 : ∀ it ∈ ord.line_items, 0 < it.quantity)
    (h5 : ∀ f ∈ ord.fulfillments, f.tracking_number ≠ some (.str "Processing"))
    (h6 : ord.line_items ≠ []) :
    claimC1Holds ord := by
  have hperm := jsValues_perm ord.line_items h1
  have hvnd : ((jsValues ord.line_items).map LineItem.id).Nodup :=
    ((hperm.map LineItem.id).symm).nodup h1
  have hpk : (processOrderData ord).packages = processOrderPackages ord := rfl
  have hreal : realPackages (processOrderPackages ord) = mapperRealPackages ord :=
    realPackages_out ord h5
  have hsum : ∀ i, pkgItemSum (mapperRealPackages ord) (some i) = rawItemFulfilledSum ord i :=
    mapperRealPackages_sum ord h1 h2
  have huniq : ∀ x ∈ ord.line_items, ∀ y ∈ ord.line_items, x.id = y.id → x = y :=
    fun x hx y hy hxy => List.inj_on_of_nodup_map h1 hx hy hxy
  refine ⟨?_, ?_, ?_⟩
  · -- (a) per-item real-package totals never exceed the ordered quantity
    intro it hit
    rw [hpk, hreal, hsum]
    exact h3 it hit
  · -- (b) synthetic package appended iff strict shortfall somewhere
    have hshort_iff :
        (∃ it ∈ ord.line_items,
          pkgItemSum (realPackages (processOrderData ord).packages) (some it.id) < it.quantity) ↔
        ¬ (mapperUnfulfilled ord).isEmpty = true := by
      rw [hpk, hreal]
      rw [List.isEmpty_iff, mapperUnfulfilled_empty_iff]
      constructor
      · rintro ⟨it, hit, hlt⟩ hall
        exact hall it (hperm.mem_iff.mpr hit) (sub_pos.mpr hlt)
      · intro h
        by_contra hno
        push_neg at hno
        apply h
        intro it hit hpos
        exact absurd (sub_pos.mp hpos) (not_lt.mpr (hno it (hperm.mem_iff.mp hit)))
    by_cases hemp : (mapperUnfulfilled ord).isEmpty = true
    · refine iff_of_false (fun h => (hshort_iff.mp h) hemp) ?_
      intro htail
      have hflt := htail.1
      rw [hpk, processingFilter_out ord h5, if_pos hemp] at hflt
      simp at hflt
    · have hout : processOrderPackages ord
          = mapperRealPackages ord ++ [syntheticPackage ord] := by
        unfold processOrderPackages
        simp [hemp]
      refine iff_of_true (hshort_iff.mpr hemp) ?_
      refine ⟨?_, ?_, ?_⟩
      · rw [hpk, processingFilter_out ord h5, if_neg hemp]
        rfl
      · rw [hpk, hout]
        simp
      · rw [hpk, hout, List.getLastD_concat]
        refine ⟨by simp [isProcessingPkg, syntheticPackage], ?_, ?_, ?_⟩
        · -- per-item shortfall iff membership in the synthetic items
          intro it hit
          rw [← hout, ← hpk, hpk, hreal]
          show pkgItemSum (mapperRealPackages ord) (some it.id) < it.quantity ↔ _
          constructor
          · intro hlt
            show _ ∈ (syntheticPackage ord).items
            rw [syntheticPackage]
            apply List.mem_filterMap.mpr
            refine ⟨it, hperm.mem_iff.mpr hit, ?_⟩
            rw [mapperShortfallItem_some_iff]
            exact ⟨sub_pos.mpr hlt, rfl⟩
          · intro hmem
            rw [show (syntheticPackage ord).items = mapperUnfulfilled ord from rfl] at hmem
            obtain ⟨w, hw, hws⟩ := List.mem_filterMap.mp hmem
            rw [mapperShortfallItem_some_iff] at hws
            obtain ⟨hpos, heq⟩ := hws
            have hid : w.id = it.id := by
              have := congrArg PkgItem.id heq
              simpa using this.symm
            have hwit : w = it :=
              huniq w (hperm.mem_iff.mp hw) it hit hid
            subst hwit
            exact sub_pos.mp hpos
        · -- every synthetic item is some line item
          intro x hx
          rw [show (syntheticPackage ord).items = mapperUnfulfilled ord from rfl] at hx
          obtain ⟨w, hw, hws⟩ := List.mem_filterMap.mp hx
          exact ⟨w, hperm.mem_iff.mp hw, mapperShortfallItem_id ord w x hws⟩
        · -- synthetic items carry distinct ids
          rw [show (syntheticPackage ord).items = mapperUnfulfilled ord from rfl]
          exact mapperUnfulfilled_ids_nodup_go ord (jsValues ord.line_items) hvnd
  · -- (c) zero fulfillments: one synthetic package with everything
    intro hf
    have hrp : mapperRealPackages ord = [] := by
      unfold mapperRealPackages
      rw [hf]
      rfl
    have hfull : mapperUnfulfilled ord
        = (jsValues ord.line_items).map
            (fun it => { id := some it.id, name := some it.name, quantity := it.quantity }) := by
      unfold mapperUnfulfilled
      rw [List.filterMap_congr (g := fun it =>
        some ({ id := some it.id, name := some it.name, quantity := it.quantity } : PkgItem)) ?_]
      · exact filterMap_all_some _ _
      · intro it hit
        rw [mapperShortfallItem_some_iff, hrp]
        have hq : 0 < it.quantity := h4 it (hperm.mem_iff.mp hit)
        simp [pkgItemSum, hq]
    have hne : jsValues ord.line_items ≠ [] := by
      intro h0
      have hlen := hperm.length_eq
      rw [h0] at hlen
      exact h6 (List.eq_nil_of_length_eq_zero hlen.symm)
    have hemp : (mapperUnfulfilled ord).isEmpty = false := by
      rw [hfull]
      cases hv : jsValues ord.line_items with
      | nil => exact absurd hv hne
      | cons a l => simp
    have hout : processOrderPackages ord = [syntheticPackage ord] := by
      unfold processOrderPackages
      rw [hrp, hemp]
      rfl
    refine ⟨by rw [hpk, hout]; rfl, ?_, ?_, ?_⟩
    · rw [hpk, hout]
      simp [isProcessingPkg, syntheticPackage]
    · intro it hit
      rw [hpk, hout]
      show _ ∈ (syntheticPackage ord).items
      rw [show (syntheticPackage ord).items = mapperUnfulfilled ord from rfl, hfull]
      exact List.mem_map_of_mem _ (hperm.mem_iff.mpr hit)
    · intro x hx
      rw [hpk, hout] at hx
      rw [show ([syntheticPackage ord].getLastD placeholderPackage).items
          = mapperUnfulfilled ord from rfl, hfull] at hx
      obtain ⟨w, hw, rfl⟩ := List.mem_map.mp hx
      exact ⟨w, hperm.mem_iff.mp hw, rfl⟩

/-- Claim C1 as stated is false on the code: a raw order whose single
fulfillment ships quantity 2 of an item ordered at quantity 1 maps to a
real package carrying 2 > 1 of that item — and no synthetic package —
violating the claimed invariant. -/
theorem claim_C1_counterexample :
    ¬ claimC1Holds
        { line_items := [{ id := 1, name := "A", quantity := 1 }]
          fulfillments := [{ id := 10, tracking_number := some (.str "TN1"),
                             line_items := [{ id := 1, quantity := 2 }] }] } := by
  decide

/-- Witness for the amended claim C1 at a concrete well-formed order
(two items, one partially fulfilled). -/
theorem claim_C1_mapper_invariant_witness :
    claimC1Holds
      { line_items := [{ id := 1, name := "A", quantity := 2 },
                       { id := 2, name := "B", quantity := 1 }]
        fulfillments := [{ id := 10, tracking_number := some (.str "TN1"),
                           line_items := [{ id := 1, quantity := 1 }] }] } :=
  claim_C1_mapper_invariant _ (by decide) (by decide) (by decide) (by decide)
    (by decide) (by decide)

/-! ## Claims C2-C5 -/

/-- Claim C2: for a non-sentinel tracking number with credentials
configured, when the initial fetch yields a not-found response, the
registration is accepted, and all three poll attempts return no events,
`getTrackingInfo` returns the `ok:true` "Registered" result with carrier
"Detecting..." and exactly one placeholder event timestamped with the
current time — a success, not an error. -/
theorem claim_C2_registered_placeholder (env : Env) (tr : Translator) (tracking : String)
    (lang : Option JsPrim) (d0 : ApiResponse)
    (hmock : tracking ≠ "TEST123_MOCK")
    (hkey : env.hasKey = true)
    (hf0 : env.fetchAt 0 = .ok d0)
    (hnod : ¬ (d0.code = 0 ∧ d0.accepted ≠ []))
    (hreg : (registerTracking env).ok = true)
    (hp1 : pollStep (env.fetchAt 1) = .ok none)
    (hp2 : pollStep (env.fetchAt 2) = .ok none)
    (hp3 : pollStep (env.fetchAt 3) = .ok none) :
    getTrackingInfo env tr tracking lang
      = { ok := true
          tracking := some tracking
          status := some "Registered"
          carrier := some "Detecting..."
          events := [{ time := env.now
                       desc := some "Tracking number registered. System is retrieving details from carrier..." }] } := by
  unfold getTrackingInfo getTrackingInfoBody acquireTrackData
  rw [if_neg hmock]
  simp only [hkey, Bool.not_true, Bool.false_eq_true, if_false, hf0, if_neg hnod, hreg,
    if_true, pollLoop, hp1, hp2, hp3]
  rfl

/-- A concrete environment exercising the register-then-poll path of
claim C2: every fetch answers "not found" (code 1), registration is
accepted. -/
def envRegisteredC2 : Env :=
  { hasKey := true
    fetchAt := fun _ => .ok { code := 1 }
    regResp := .ok { code := 0, accepted := [{}] }
    changeResp := .ok { code := 0 }
    now := "2026-02-01 12:00:00" }

theorem claim_C2_registered_placeholder_witness :
    getTrackingInfo envRegisteredC2 (fun _ _ => .error ()) "RR123456789" none
      = { ok := true
          tracking := some "RR123456789"
          status := some "Registered"
          carrier := some "Detecting..."
          events := [{ time := "2026-02-01 12:00:00"
                       desc := some "Tracking number registered. System is retrieving details from carrier..." }] } :=
  claim_C2_registered_placeholder envRegisteredC2 (fun _ _ => .error ()) "RR123456789" none
    { code := 1 } (by decide) rfl rfl (by decide) rfl rfl rfl rfl

/-- Claim C3: `getTrackingInfo` is total and never propagates an
exception: every run ends in the mock result, the not-configured result,
the try-block's ordinary result, or — when any step of the try block
threw — the `ok:false` "Service Error" result produced by the catch. -/
theorem claim_C3_no_exception_escapes (env : Env) (tr : Translator) (tracking : String)
    (lang : Option JsPrim) :
    getTrackingInfo env tr tracking lang = mockResult tracking ∨
    getTrackingInfo env tr tracking lang
      = { ok := false, error := some "Tracking service not configured" } ∨
    (∃ r, getTrackingInfoBody env tr tracking lang = .ok r ∧
      getTrackingInfo env tr tracking lang = r) ∨
    (∃ e, getTrackingInfoBody env tr tracking lang = .error e ∧
      getTrackingInfo env tr tracking lang = { ok := false, error := some "Service Error" }) := by
  by_cases hm : tracking = "TEST123_MOCK"
  · left
    simp [getTrackingInfo, hm]
  · by_cases hk : env.hasKey
    · cases hb : getTrackingInfoBody env tr tracking lang with
      | ok r =>
        right; right; left
        exact ⟨r, rfl, by simp [getTrackingInfo, hm, hk, hb]⟩
      | error e =>
        right; right; right
        exact ⟨e, rfl, by simp [getTrackingInfo, hm, hk, hb]⟩
    · right; left
      simp [getTrackingInfo, hm, hk]

/-- The 17TRACK "already registered" rejection test of line 66:
`rejected.some(r => r.error && r.error.code === -18019903)`. -/
def anyAlreadyRegistered (d : ApiResponse) : Bool :=
  (d.rejected.getD []).any fun r => r.error.isSome && decide (r.error = some ⟨-18019903⟩)

/-- Claim C4: with credentials configured, registration returns success
when the carrier accepts the number, and also — idempotently — when the
carrier rejects it with the already-registered code -18019903; any other
rejection yields `ok:false` with error "Registration failed". -/
theorem claim_C4_registration_idempotent (env : Env) (d : ApiResponse)
    (hkey : env.hasKey = true) (hresp : env.regResp = .ok d) :
    (d.code = 0 ∧ d.accepted ≠ [] → registerTracking env = { ok := true }) ∧
    (¬ (d.code = 0 ∧ d.accepted ≠ []) → anyAlreadyRegistered d = true →
      registerTracking env = { ok := true }) ∧
    (¬ (d.code = 0 ∧ d.accepted ≠ []) → anyAlreadyRegistered d = false →
      registerTracking env = { ok := false, error := some "Registration failed" }) := by
  unfold registerTracking anyAlreadyRegistered
  rw [hkey, hresp]
  refine ⟨fun h => by simp [h], fun h ha => ?_, fun h ha => ?_⟩
  · simp only [Bool.not_true, Bool.false_eq_true, if_false, if_neg h]
    rw [ha]
    rfl
  · simp only [Bool.not_true, Bool.false_eq_true, if_false, if_neg h]
    rw [ha]
    rfl

/-- A concrete register environment: rejected with the already-registered
code. -/
def envAlreadyRegisteredC4 : Env :=
  { hasKey := true
    fetchAt := fun _ => .ok { code := 1 }
    regResp := .ok { code := -18019901, rejected := some [{ error := some ⟨-18019903⟩ }] }
    changeResp := .ok { code := 0 }
    now := "" }

/-- A concrete register environment: rejected for another reason. -/
def envRejectedC4 : Env :=
  { envAlreadyRegisteredC4 with
    regResp := .ok { code := -18019901, rejected := some [{ error := some ⟨-18019902⟩ }] } }

/-- A concrete register environment: accepted. -/
def envAcceptedC4 : Env :=
  { envAlreadyRegisteredC4 with regResp := .ok { code := 0, accepted := [{}] } }

theorem claim_C4_registration_idempotent_witness :
    registerTracking envAcceptedC4 = { ok := true } ∧
    registerTracking envAlreadyRegisteredC4 = { ok := true } ∧
    registerTracking envRejectedC4 = { ok := false, error := some "Registration failed" } :=
  ⟨(claim_C4_registration_idempotent envAcceptedC4 { code := 0, accepted := [{}] }
      rfl rfl).1 (by decide),
   (claim_C4_registration_idempotent envAlreadyRegisteredC4
      { code := -18019901, rejected := some [{ error := some ⟨-18019903⟩ }] }
      rfl rfl).2.1 (by decide) (by decide),
   (claim_C4_registration_idempotent envRejectedC4
      { code := -18019901, rejected := some [{ error := some ⟨-18019902⟩ }] }
      rfl rfl).2.2 (by decide) (by decide)⟩

/-- Claim C5: in the order+email path, a package whose tracking number is
absent, falsy, or the "Processing" sentinel, or whose tracking lookup
returns a non-ok result, appears in the merged view unchanged except for
an empty `events` list; the length of the merged view equals the input
and every other slot is exactly the enrichment of its own input package,
so one package's failure never alters another slot. -/
theorem claim_C5_enrichment_isolation (trackFn : JsPrim → TrackResult) (pkgs : List Package)
    (i : Nat) (p : Package) (hp : pkgs[i]? = some p)
    (hfail : p.tracking_number = none ∨
      (∃ tn, p.tracking_number = some tn ∧ (jsPrimTruthy tn = false ∨ tn = .str "Processing")) ∨
      (∃ tn, p.tracking_number = some tn ∧ (trackFn tn).ok = false)) :
    (enrichedPackages trackFn pkgs).length = pkgs.length ∧
    (enrichedPackages trackFn pkgs)[i]? = some { p with events := [] } ∧
    (∀ j q, j ≠ i → pkgs[j]? = some q →
      (enrichedPackages trackFn pkgs)[j]? = some (enrichPackage trackFn q)) := by
  have henr : enrichPackage trackFn p = { p with events := [] } := by
    rcases hfail with hnone | ⟨tn, htn, hcase⟩ | ⟨tn, htn, hnok⟩
    · simp [enrichPackage, hnone]
    · rcases hcase with hfalsy | hproc
      · simp [enrichPackage, htn, hfalsy]
      · simp [enrichPackage, htn, hproc]
    · by_cases hc : jsPrimTruthy tn = true ∧ tn ≠ .str "Processing"
      · simp [enrichPackage, htn, hc, hnok]
      · simp only [enrichPackage, htn]
        rw [if_neg (by simpa using hc)]
  refine ⟨by simp [enrichedPackages], ?_, ?_⟩
  · simp [enrichedPackages, hp, henr]
  · intro j q hj hq
    simp [enrichedPackages, hq]

/-- Concrete packages for the claim C5 witness: a synthetic "Processing"
package and a carrier-backed one. -/
def pkgProcessingC5 : Package :=
  { id := .str "unfulfilled-group", name := "Package #2 (Processing)",
    tracking_number := some (.str "Processing"), tracking_company := some "N/A",
    status := some "ordered", items := [{ id := some 2, name := some "B", quantity := 1 }] }

def pkgRealC5 : Package :=
  { id := .num 10, name := "Package #1", tracking_number := some (.str "TN1"),
    tracking_company := some "USPS", status := some "fulfilled",
    items := [{ id := some 1, name := some "A", quantity := 1 }] }

def trackFnC5 : JsPrim → TrackResult := fun _ =>
  { ok := true, tracking := some "TN1", status := some "In Transit",
    carrier := some "USPS", events := [{ time := "2026-02-01", desc := some "Arrived" }],
    original_language := some "English" }

theorem claim_C5_enrichment_isolation_witness :
    (enrichedPackages trackFnC5 [pkgProcessingC5, pkgRealC5]).length
        = [pkgProcessingC5, pkgRealC5].length ∧
    (enrichedPackages trackFnC5 [pkgProcessingC5, pkgRealC5])[0]?
        = some { pkgProcessingC5 with events := [] } ∧
    (∀ j q, j ≠ 0 → [pkgProcessingC5, pkgRealC5][j]? = some q →
      (enrichedPackages trackFnC5 [pkgProcessingC5, pkgRealC5])[j]?
        = some (enrichPackage trackFnC5 q)) :=
  claim_C5_enrichment_isolation trackFnC5 [pkgProcessingC5, pkgRealC5] 0 pkgProcessingC5
    rfl (Or.inr (Or.inl ⟨.str "Processing", rfl, Or.inr rfl⟩))

/-! ## Claim C6 : translateEvents partial failure -/

/-- The translator used by the claim C6 counterexample: resolves for the
description text, rejects for the location text. -/
def trPartialC6 : String → Except Unit String := fun s =>
  if s = "bonjour" then .ok "hello" else .error ()

/-- The event of the claim C6 counterexample. -/
def evPartialC6 : JsEvent := { time := "t1", desc := some "bonjour", location := some "paris" }

/-- Claim C6 as stated is false on the code: when the description call
succeeds and the location call fails, the event's translation has failed
but the returned event keeps the translated description — the original
description text is not retained. -/
theorem claim_C6_counterexample :
    translateEvents trPartialC6 [evPartialC6]
      = [{ time := "t1", desc := some "hello", location := some "paris" }] ∧
    evPartialC6.desc = some "bonjour" := by
  constructor
  · rfl
  · rfl

/-- The guard of the description-translation call of `translateEvents`
(line 325). -/
abbrev descAttempted (e : JsEvent) : Prop :=
  jsTruthyS (jsOrOS e.description e.desc) = true ∧
  jsTrim ((jsOrOS e.description e.desc).getD "") ≠ ""

/-- The guard of the location-translation call of `translateEvents`
(line 331). -/
abbrev locAttempted (e : JsEvent) : Prop :=
  jsTruthyS e.location = true ∧ jsTrim (e.location.getD "") ≠ ""

/-- Claim C6, amended: `translateEvents` translates each event
independently (slot i of the output is the translation of slot i of the
input, so length and order are preserved), each event keeps its
timestamp and its location presence; an event whose description
translation fails is returned entirely unchanged, and an event whose
location translation fails keeps its original location text (while a
previously successful description translation is kept, cf. the
counterexample). -/
theorem claim_C6_translate_partial_failure (tr : String → Except Unit String) :
    (∀ events : List JsEvent, (translateEvents tr events).length = events.length) ∧
    (∀ (events : List JsEvent) (i : Nat),
      (translateEvents tr events)[i]? = (events[i]?).map (translateOneEvent tr)) ∧
    (∀ e : JsEvent, (translateOneEvent tr e).time = e.time) ∧
    (∀ e : JsEvent, (translateOneEvent tr e).location.isSome = e.location.isSome) ∧
    (∀ e : JsEvent, descAttempted e →
      tr ((jsOrOS e.description e.desc).getD "") = .error () → translateOneEvent tr e = e) ∧
    (∀ e : JsEvent,
      (¬ descAttempted e ∨ ∃ t, tr ((jsOrOS e.description e.desc).getD "") = .ok t) →
      tr (e.location.getD "") = .error () →
      (translateOneEvent tr e).location = e.location) := by
  refine ⟨?_, ?_, ?_, ?_, ?_, ?_⟩
  · intro events
    cases events with
    | nil => rfl
    | cons e es => simp [translateEvents]
  · intro events i
    cases events with
    | nil => simp [translateEvents]
    | cons e es =>
      rw [show translateEvents tr (e :: es) = (e :: es).map (translateOneEvent tr) from rfl,
        List.getElem?_map]
  · intro e
    by_cases h1 : descAttempted e
    · cases htr : tr ((jsOrOS e.description e.desc).getD "") with
      | error u => simp [translateOneEvent, h1, htr]
      | ok t =>
        by_cases h2 : locAttempted e
        · cases htr2 : tr (e.location.getD "") with
          | error u => simp [translateOneEvent, h1, htr, h2, htr2]
          | ok t2 => simp [translateOneEvent, h1, htr, h2, htr2]
        · simp [translateOneEvent, h1, htr, h2]
    · by_cases h2 : locAttempted e
      · cases htr2 : tr (e.location.getD "") with
        | error u => simp [translateOneEvent, h1, h2, htr2]
        | ok t2 => simp [translateOneEvent, h1, h2, htr2]
      · simp [translateOneEvent, h1, h2]
  · intro e
    by_cases h1 : descAttempted e
    · cases htr : tr ((jsOrOS e.description e.desc).getD "") with
      | error u => simp [translateOneEvent, h1, htr]
      | ok t =>
        by_cases h2 : locAttempted e
        · cases htr2 : tr (e.location.getD "") with
          | error u => simp [translateOneEvent, h1, htr, h2, htr2]
          | ok t2 =>
            have : e.location.isSome = true := by
              rcases h2 with ⟨hl, _⟩
              cases hloc : e.location with
              | none => rw [hloc] at hl; simp [jsTruthyS] at hl
              | some s => rfl
            simp [translateOneEvent, h1, htr, h2, htr2, this]
        · simp [translateOneEvent, h1, htr, h2]
    · by_cases h2 : locAttempted e
      · cases htr2 : tr (e.location.getD "") with
        | error u => simp [translateOneEvent, h1, h2, htr2]
        | ok t2 =>
          have : e.location.isSome = true := by
            rcases h2 with ⟨hl, _⟩
            cases hloc : e.location with
            | none => rw [hloc] at hl; simp [jsTruthyS] at hl
            | some s => rfl
          simp [translateOneEvent, h1, h2, htr2, this]
      · simp [translateOneEvent, h1, h2]
  · intro e h1 htr
    simp [translateOneEvent, h1, htr]
  · intro e hd htr2
    by_cases h2 : locAttempted e
    · rcases hd with h1 | ⟨t, htr⟩
      · simp [translateOneEvent, h1, h2, htr2]
      · by_cases h1 : descAttempted e
        · simp [translateOneEvent, h1, htr, h2, htr2]
        · simp [translateOneEvent, h1, h2, htr2]
    · by_cases h1 : descAttempted e
      · rcases hd with h1' | ⟨t, htr⟩
        · exact absurd h1 h1'
        · simp [translateOneEvent, h1, htr, h2]
      · simp [translateOneEvent, h1, h2]

/-- The always-failing translator of the claim C6 witness. -/
def trFailC6 : String → Except Unit String := fun _ => .error ()

/-- The event of the claim C6 witness. -/
def evFailC6 : JsEvent := { time := "t0", desc := some "hola", location := some "madrid" }

theorem claim_C6_translate_partial_failure_witness :
    translateOneEvent trFailC6 evFailC6 = evFailC6 :=
  (claim_C6_translate_partial_failure trFailC6).2.2.2.2.1 evFailC6 (by decide) rfl

/-! ## Claim C7 : language detection before translation -/

theorem detectLanguageScan_english :
    ∀ events : List JsEvent,
      (∀ e ∈ events, eventText e = "" ∨
        (hasCJK (eventText e) = false ∧ hasCyrillic (eventText e) = false ∧
         hasHangul (eventText e) = false ∧ hasKana (eventText e) = false)) →
      detectLanguageScan events = "English" := by
  intro events
  induction events with
  | nil => intro _; rfl
  | cons e r ih =>
    intro h
    have he := h e (List.mem_cons_self e r)
    have hr := ih fun x hx => h x (List.mem_cons_of_mem e hx)
    rcases he with he | ⟨h1, h2, h3, h4⟩
    · simp [detectLanguageScan, he, hr]
    · by_cases hemp : eventText e = ""
      · simp [detectLanguageScan, hemp, hr]
      · simp [detectLanguageScan, hemp, h1, h2, h3, h4, hr]

theorem processTrackData_original_language (tr tr' : Translator) (tracking : String)
    (lang : Option JsPrim) (td : Option TrackPayload) :
    (processTrackData tr tracking lang td).original_language
      = (processTrackData tr' tracking lang td).original_language := by
  cases td with
  | none => rfl
  | some td => simp [processTrackData]

/-- Claim C7: `detectLanguage` returns "Unknown" on an empty list,
otherwise scans events in order testing Chinese, Russian, Korean then
Japanese signatures with the first match winning and "English" when no
event matches; and `getTrackingInfo` computes `original_language` from
the pre-translation events, so the translator oracle never influences the
reported original language. -/
theorem claim_C7_detect_language :
    detectLanguage [] = "Unknown" ∧
    (∀ (e : JsEvent) (r : List JsEvent),
      detectLanguageScan (e :: r)
        = (if eventText e = "" then detectLanguageScan r
           else if hasCJK (eventText e) then "Chinese"
           else if hasCyrillic (eventText e) then "Russian"
           else if hasHangul (eventText e) then "Korean"
           else if hasKana (eventText e) then "Japanese"
           else detectLanguageScan r)) ∧
    (∀ events : List JsEvent, events ≠ [] → detectLanguage events = detectLanguageScan events) ∧
    (∀ events : List JsEvent, events ≠ [] →
      (∀ e ∈ events, eventText e = "" ∨
        (hasCJK (eventText e) = false ∧ hasCyrillic (eventText e) = false ∧
         hasHangul (eventText e) = false ∧ hasKana (eventText e) = false)) →
      detectLanguage events = "English") ∧
    (∀ (env : Env) (tr tr' : Translator) (tracking : String) (lang : Option JsPrim),
      (getTrackingInfo env tr tracking lang).original_language
        = (getTrackingInfo env tr' tracking lang).original_language) ∧
    (∀ (env : Env) (tr : Translator) (tracking : String) (lang : Option JsPrim)
        (d : ApiResponse) (item : AcceptedItem) (td : TrackPayload),
      tracking ≠ "TEST123_MOCK" → env.hasKey = true →
      env.fetchAt 0 = .ok d → d.code = 0 → d.accepted ≠ [] →
      d.accepted.head? = some item → extractInfo item = some td →
      (getTrackingInfo env tr tracking lang).original_language
        = some (detectLanguage (normalizeTrack td).1)) := by
  refine ⟨rfl, fun e r => rfl, ?_, ?_, ?_, ?_⟩
  · intro events hne
    rw [detectLanguage, if_neg]
    rw [List.length_eq_zero]
    exact hne
  · intro events hne h
    rw [detectLanguage, if_neg (by rw [List.length_eq_zero]; exact hne)]
    exact detectLanguageScan_english events h
  · intro env tr tr' tracking lang
    unfold getTrackingInfo getTrackingInfoBody
    by_cases hm : tracking = "TEST123_MOCK"
    · simp [hm]
    · by_cases hk : env.hasKey
      · simp only [if_neg hm, hk, Bool.not_true, Bool.false_eq_true, if_false]
        cases hacq : acquireTrackData env tracking with
        | error e => simp
        | ok out =>
          cases out with
          | earlyReturn r => simp
          | proceed td =>
            simpa using processTrackData_original_language tr tr' tracking lang td
      · simp [hm, hk]
  · intro env tr tracking lang d item td hm hk hf0 hcode hne hhead hinfo
    unfold getTrackingInfo getTrackingInfoBody acquireTrackData
    rw [if_neg hm, hf0]
    simp only [hk, Bool.not_true, Bool.false_eq_true, if_false,
      if_pos (And.intro hcode hne), hhead, hinfo]
    simp [processTrackData]

/-- A modern-shape payload with Chinese event text, for the C7 witness. -/
def provEntryC7 : ProviderEntry :=
  { events := some [{ time_iso := some "2026-01-01T00:00:00Z",
                      description := some "已签收", location := some "深圳" }]
    provider := some { name := some "YunExpress", key := 190094 } }

def tdModernC7 : TrackPayload :=
  { tracking := some { providers := some [provEntryC7] }
    latest_status := some { status_description := some "Delivered" } }

def envModernC7 : Env :=
  { hasKey := true
    fetchAt := fun _ => .ok { code := 0, accepted := [{ track_info := some tdModernC7 }] }
    regResp := .ok { code := 1 }
    changeResp := .ok { code := 0 }
    now := "" }

theorem claim_C7_detect_language_witness :
    detectLanguage [{ time := "", desc := some "delivered to mailbox" }] = "English" ∧
    (getTrackingInfo envModernC7 (fun _ _ => .error ()) "YT1" none).original_language
      = some (detectLanguage (normalizeTrack tdModernC7).1) :=
  ⟨claim_C7_detect_language.2.2.2.1 [{ time := "", desc := some "delivered to mailbox" }]
      (by decide) (by decide),
   claim_C7_detect_language.2.2.2.2.2 envModernC7 (fun _ _ => .error ()) "YT1" none
      { code := 0, accepted := [{ track_info := some tdModernC7 }] }
      { track_info := some tdModernC7 } tdModernC7
      (by decide) rfl rfl rfl (by decide) rfl rfl⟩

/-! ## Claim C8 : the status fallback chain -/

/-- The status chain exactly as claim C8 words it (spec words, not the
source): `latest_status.status_description`, then a top-level
`status_description`, then a top-level `status`, then "Unknown". -/
def claimedStatusChain (td : TrackPayload) : String :=
  jsOrS (td.latest_status.bind fun ls => ls.status_description)
    (jsOrS td.status_description (jsOrS td.status "Unknown"))

/-- A modern-shape payload with no `latest_status` but with top-level
`status_description`/`status` fields. -/
def tdTopStatusC8 : TrackPayload :=
  { tracking := some { providers := some [] }
    latest_status := none
    status_description := some "Shipment picked up"
    status := some "In transit" }

def envTopStatusC8 : Env :=
  { hasKey := true
    fetchAt := fun _ => .ok { code := 0, accepted := [{ track := some tdTopStatusC8 }] }
    regResp := .ok { code := 1 }
    changeResp := .ok { code := 0 }
    now := "" }

/-- Claim C8 as stated is false on the code: for a modern-shape payload
without `latest_status`, the claimed chain would fall back to the
top-level `status_description` ("Shipment picked up"), but the code never
reads the top-level fields and reports "Unknown". -/
theorem claim_C8_counterexample :
    claimedStatusChain tdTopStatusC8 = "Shipment picked up" ∧
    (getTrackingInfo envTopStatusC8 (fun _ _ => .error ()) "SHIP8" none).status
      = some "Unknown" := by
  exact ⟨rfl, rfl⟩

/-- Claim C8, amended: for a modern-shape payload the overall status is
`latest_status.status_description`, else `latest_status.status`, else
"Unknown"; when `latest_status` is absent the status is "Unknown", and
the top-level `status_description`/`status` fields are never consulted. -/
theorem claim_C8_status_chain (env : Env) (tr : Translator) (tracking : String)
    (lang : Option JsPrim) (d : ApiResponse) (item : AcceptedItem) (td : TrackPayload)
    (trk : TrackingObj) (ps : List ProviderEntry)
    (hm : tracking ≠ "TEST123_MOCK") (hk : env.hasKey = true)
    (hf0 : env.fetchAt 0 = .ok d) (hcode : d.code = 0) (hne : d.accepted ≠ [])
    (hhead : d.accepted.head? = some item) (hinfo : extractInfo item = some td)
    (htrk : td.tracking = some trk) (hps : trk.providers = some ps) :
    (getTrackingInfo env tr tracking lang).status
      = some (match td.latest_status with
              | some ls => jsOrS ls.status_description (jsOrS ls.status "Unknown")
              | none => "Unknown") := by
  unfold getTrackingInfo getTrackingInfoBody acquireTrackData
  rw [if_neg hm, hf0]
  simp only [hk, Bool.not_true, Bool.false_eq_true, if_false,
    if_pos (And.intro hcode hne), hhead, hinfo]
  simp [processTrackData, normalizeTrack, htrk, hps]

theorem claim_C8_status_chain_witness :
    (getTrackingInfo envModernC7 (fun _ _ => .error ()) "YT2" none).status
      = some (match tdModernC7.latest_status with
              | some ls => jsOrS ls.status_description (jsOrS ls.status "Unknown")
              | none => "Unknown") :=
  claim_C8_status_chain envModernC7 (fun _ _ => .error ()) "YT2" none
    { code := 0, accepted := [{ track_info := some tdModernC7 }] }
    { track_info := some tdModernC7 } tdModernC7
    { providers := some [provEntryC7] } [provEntryC7]
    (by decide) rfl rfl rfl (by decide) rfl rfl rfl rfl

/-! ## Claim C9 : tracking-number matching is strict -/

/-- Two packages: one with a string tracking number, one whose upstream
API delivered the tracking number as a number. -/
def pkgOtherC9 : Package :=
  { id := .num 1, name := "Package #1", tracking_number := some (.str "ZZZ9") }

def pkgNumericC9 : Package :=
  { id := .num 2, name := "Package #2", tracking_number := some (.num 8849201923) }

/-- Claim C9 as stated is false on the code: the string forms of the
numeric tracking number `8849201923` and the requested string
"8849201923" are equal, yet `find(p => p.tracking_number === tracking)`
matches nothing — get_token.js's `targetPackage` is `undefined` (the
caller then errors) and server.js's `matchedPackage` falls back to the
first package instead of the numeric match. -/
theorem claim_C9_counterexample :
    claimedStringFormMatch pkgNumericC9 "8849201923" = true ∧
    targetPackage [pkgOtherC9, pkgNumericC9] "8849201923" = none ∧
    matchedPackage [pkgOtherC9, pkgNumericC9] "8849201923" = some pkgOtherC9 := by
  exact ⟨rfl, rfl, rfl⟩

/-- Claim C9, amended: the comparison is strict `===` without coercion —
a package matches exactly when its `tracking_number` field holds the
string value equal to the requested tracking number; when no package
matches strictly, the get_token.js lookup is `undefined` and the
server.js lookup falls back to the first package. -/
theorem claim_C9_strict_match (pkgs : List Package) (tracking : String) :
    (∀ p, targetPackage pkgs tracking = some p →
      p.tracking_number = some (.str tracking) ∧ p ∈ pkgs) ∧
    ((∀ p ∈ pkgs, p.tracking_number ≠ some (.str tracking)) →
      targetPackage pkgs tracking = none ∧ matchedPackage pkgs tracking = pkgs.head?) ∧
    (∀ p ∈ pkgs, p.tracking_number = some (.str tracking) →
      ∃ q, targetPackage pkgs tracking = some q ∧
        q.tracking_number = some (.str tracking)) := by
  refine ⟨?_, ?_, ?_⟩
  · intro p hp
    have h1 := List.find?_some (p := fun p : Package =>
      decide (p.tracking_number = some (.str tracking))) hp
    have h2 := List.mem_of_find?_eq_some (p := fun p : Package =>
      decide (p.tracking_number = some (.str tracking))) hp
    exact ⟨by simpa using h1, h2⟩
  · intro h
    have hnone : targetPackage pkgs tracking = none := by
      unfold targetPackage
      rw [List.find?_eq_none]
      intro p hp
      simpa using h p hp
    refine ⟨hnone, ?_⟩
    unfold matchedPackage
    rw [show pkgs.find? (fun p => decide (p.tracking_number = some (.str tracking)))
        = none from hnone]
  · intro p hp hstr
    have hsome : (pkgs.find? fun p : Package =>
        decide (p.tracking_number = some (.str tracking))).isSome := by
      rw [List.find?_isSome]
      exact ⟨p, hp, by simpa using hstr⟩
    obtain ⟨q, hq⟩ := Option.isSome_iff_exists.mp hsome
    refine ⟨q, hq, ?_⟩
    have := List.find?_some (p := fun p : Package =>
      decide (p.tracking_number = some (.str tracking))) hq
    simpa using this

theorem claim_C9_strict_match_witness :
    (targetPackage [pkgOtherC9, pkgNumericC9] "NOPE" = none ∧
      matchedPackage [pkgOtherC9, pkgNumericC9] "NOPE"
        = [pkgOtherC9, pkgNumericC9].head?) ∧
    (∃ q, targetPackage [pkgOtherC9, pkgNumericC9] "ZZZ9" = some q ∧
      q.tracking_number = some (.str "ZZZ9")) :=
  ⟨(claim_C9_strict_match [pkgOtherC9, pkgNumericC9] "NOPE").2.1 (by decide),
   (claim_C9_strict_match [pkgOtherC9, pkgNumericC9] "ZZZ9").2.2 pkgOtherC9
     (by decide) (by decide)⟩

/-! ## Claim C10 : unrecognized payload shapes -/

/-- Claim C10: when the first fetch is accepted but the extracted payload
matches neither the modern shape (no `tracking.providers`) nor the legacy
shape (no `z0`), the call succeeds with empty events and "Unknown" status
and carrier; and when the accepted item carries neither `track_info` nor
`track`, the call returns `{ ok:false }` with no error field. -/
theorem claim_C10_unrecognized_payload (env : Env) (tr : Translator) (tracking : String)
    (lang : Option JsPrim) (d : ApiResponse) (item : AcceptedItem)
    (hm : tracking ≠ "TEST123_MOCK") (hk : env.hasKey = true)
    (hf0 : env.fetchAt 0 = .ok d) (hcode : d.code = 0) (hne : d.accepted ≠ [])
    (hhead : d.accepted.head? = some item) :
    (∀ td : TrackPayload, extractInfo item = some td →
      (td.tracking = none ∨ ∃ trk, td.tracking = some trk ∧ trk.providers = none) →
      td.z0 = none →
      getTrackingInfo env tr tracking lang
        = { ok := true, tracking := some tracking, status := some "Unknown",
            carrier := some "Unknown", events := [],
            original_language := some "Unknown" }) ∧
    (extractInfo item = none →
      getTrackingInfo env tr tracking lang = { ok := false }) := by
  constructor
  · intro td hinfo hshape hz0
    have hnorm : normalizeTrack td = ([], "Unknown", "Unknown") := by
      rcases hshape with htrk | ⟨trk, htrk, hps⟩
      · simp [normalizeTrack, htrk, hz0]
      · simp [normalizeTrack, htrk, hps, hz0]
    unfold getTrackingInfo getTrackingInfoBody acquireTrackData
    rw [if_neg hm, hf0]
    simp only [hk, Bool.not_true, Bool.false_eq_true, if_false,
      if_pos (And.intro hcode hne), hhead, hinfo]
    have hev2 : (match computeTargetLang lang with
        | some tl => if jsPrimTruthy tl then translateEvents (tr tl) [] else []
        | none => ([] : List JsEvent)) = ([] : List JsEvent) := by
      cases computeTargetLang lang with
      | none => rfl
      | some tl => by_cases h : jsPrimTruthy tl <;> simp [h, translateEvents]
    simp [processTrackData, hnorm, detectLanguage, hev2]
  · intro hinfo
    unfold getTrackingInfo getTrackingInfoBody acquireTrackData
    rw [if_neg hm, hf0]
    simp only [hk, Bool.not_true, Bool.false_eq_true, if_false,
      if_pos (And.intro hcode hne), hhead, hinfo]
    rfl

/-- An accepted response whose payload has no recognizable shape. -/
def envNoShapeC10 : Env :=
  { hasKey := true
    fetchAt := fun _ => .ok { code := 0, accepted := [{ track := some {} }] }
    regResp := .ok { code := 1 }
    changeResp := .ok { code := 0 }
    now := "" }

/-- An accepted response whose item has neither `track_info` nor `track`. -/
def envNoPayloadC10 : Env :=
  { envNoShapeC10 with fetchAt := fun _ => .ok { code := 0, accepted := [{}] } }

theorem claim_C10_unrecognized_payload_witness :
    getTrackingInfo envNoShapeC10 (fun _ _ => .error ()) "AB1" none
      = { ok := true, tracking := some "AB1", status := some "Unknown",
          carrier := some "Unknown", events := [],
          original_language := some "Unknown" } ∧
    getTrackingInfo envNoPayloadC10 (fun _ _ => .error ()) "AB1" none = { ok := false } :=
  ⟨(claim_C10_unrecognized_payload envNoShapeC10 (fun _ _ => .error ()) "AB1" none
      { code := 0, accepted := [{ track := some {} }] } { track := some {} }
      (by decide) rfl rfl rfl (by decide) rfl).1 {} rfl (Or.inl rfl) rfl,
   (claim_C10_unrecognized_payload envNoPayloadC10 (fun _ _ => .error ()) "AB1" none
      { code := 0, accepted := [{}] } {}
      (by decide) rfl rfl rfl (by decide) rfl).2 rfl⟩
